import Mathlib

/-!
Shallow embedding of the repository's change-triggered auto-commit pipeline
(src/auto-git-commit.py) and of the Ohm-law calculators
(src/Electronica basica/.../ley-ohm-calculadora.py and ley-ohm-desktop.py),
together with theorems settling the specification claims about them.
-/

/-! ### Configuration constants of auto-git-commit.py (module level) -/

/-- Mirrors `REPO_PATH = 'D:/UDEMY/audrino-practica'`. -/
def REPO_PATH : String := "D:/UDEMY/audrino-practica"

/-- Mirrors `COMMIT_MESSAGE = 'Auto-commit: Actualización de código'`. -/
def COMMIT_MESSAGE : String := "Auto-commit: Actualización de código"

/-- Mirrors `GITHUB_REMOTE = 'origin'`. -/
def GITHUB_REMOTE : String := "origin"

/-- Mirrors `BRANCH_NAME = 'main'`. -/
def BRANCH_NAME : String := "main"

/-- Mirrors `IGNORED_EXTENSIONS = ['.git', '.gitignore', '.vscode', '.idea']`. -/
def IGNORED_EXTENSIONS : List String := [".git", ".gitignore", ".vscode", ".idea"]

/-! ### The filter in GitAutoCommit.on_modified -/

/-- Embedding of the Python substring test `needle in hay` on strings:
true exactly when the character sequence of `needle` occurs contiguously
inside the character sequence of `hay`. -/
def py_in (needle hay : String) : Bool :=
  decide (needle.toList <:+: hay.toList)

/-- Embedding of the watchdog event record as consumed by
`GitAutoCommit.on_modified`: the handler reads `event.src_path` and
`event.is_directory`. -/
structure ChangeEvent where
  src_path : String
  is_directory : Bool
deriving DecidableEq

/-- The guard of `GitAutoCommit.on_modified` under which
`stage_commit_and_push` is invoked: the source tests
`if not event.is_directory:` and then
`if not any(ignored in file_path for ignored in IGNORED_EXTENSIONS):`
with `file_path = event.src_path`.  (The `os.path.splitext` result computed
in between is never used in the decision.) -/
def on_modified_triggers (event : ChangeEvent) : Bool :=
  !event.is_directory &&
    !(IGNORED_EXTENSIONS.any fun ignored => py_in ignored event.src_path)

theorem py_in_iff (needle hay : String) :
    py_in needle hay = true ↔ needle.toList <:+: hay.toList := by
  simp [py_in]

/-- C1: the filter accepts an event iff the event is not a directory and no
configured ignore pattern occurs as a substring of its path; in particular
directory events are always rejected and non-directory events with no
matching pattern are always accepted. -/
theorem C1_filter_accepts_iff (e : ChangeEvent) :
    (on_modified_triggers e = true ↔
      e.is_directory = false ∧
        ∀ p ∈ IGNORED_EXTENSIONS, ¬ (p.toList <:+: e.src_path.toList)) ∧
    (e.is_directory = true → on_modified_triggers e = false) ∧
    (e.is_directory = false →
      (∀ p ∈ IGNORED_EXTENSIONS, ¬ (p.toList <:+: e.src_path.toList)) →
      on_modified_triggers e = true) := by
  refine ⟨?_, ?_, ?_⟩
  · simp [on_modified_triggers, py_in]
  · intro h
    simp [on_modified_triggers, h]
  · intro h hp
    simp [on_modified_triggers, h, py_in]
    exact hp

/-- Witness for C1 at a concrete event: a non-directory source file whose
path contains none of the ignore patterns is accepted by the filter. -/
theorem C1_filter_accepts_iff_witness :
    on_modified_triggers ⟨"D:/UDEMY/audrino-practica/src/app.py", false⟩ = true :=
  (C1_filter_accepts_iff ⟨"D:/UDEMY/audrino-practica/src/app.py", false⟩).2.2
    rfl (by decide)

/-! ### The publisher: GitAutoCommit.stage_commit_and_push -/

/-- Commit object recorded in local history by `repo.index.commit`:
the fixed message together with the set of staged paths it snapshots. -/
structure Commit where
  message : String
  files : List String
deriving DecidableEq

/-- State of the external git repository as mutated by the publisher:
`pending` are unstaged working-tree changes, `staged` the index contents,
`commits` the local history, `remoteCommits` how many local commits the
remote branch has. -/
structure GitState where
  pending : List String
  staged : List String
  commits : List Commit
  remoteCommits : Nat
deriving DecidableEq

/-- Failure oracle for the three external git calls made inside the `try`
block of `stage_commit_and_push`: for each call, `none` means the call
returns normally and `some e` means it raises an exception whose `str` is
`e`. -/
structure GitOracle where
  addError : Option String
  commitError : Option String
  pushError : Option String
deriving DecidableEq

/-- A side-effecting git call attempted by the publisher, with the
arguments the source passes to it. -/
inductive GitStep where
  | addAll : GitStep
  | commit (msg : String) : GitStep
  | push (remote branch : String) : GitStep
deriving DecidableEq

/-- Outcome of one publish attempt: the source signals success by printing
a success line and failure by printing
`f"Error al subir cambios: {str(e)}"`; `errorMessage` is that logged
failure line. -/
structure PublishOutcome where
  succeeded : Bool
  errorMessage : Option String
deriving DecidableEq

/-- Result of one run of `stage_commit_and_push`: the repository state it
leaves behind, the outcome it reports, and the trace of git calls it
attempted, in order. -/
structure PublishResult where
  state : GitState
  outcome : PublishOutcome
  attempted : List GitStep
deriving DecidableEq

/-- Embedding of `GitAutoCommit.stage_commit_and_push`.  Inside a single
`try` block the source runs, in order: `repo.git.add(A=True)` (stage every
pending change, untracked included), `repo.index.commit(COMMIT_MESSAGE)`
(GitPython records a commit of the index unconditionally, with no
emptiness check, clearing the staged set), and
`repo.remote(name=GITHUB_REMOTE); origin.push(BRANCH_NAME)`.  The first
call that raises aborts the rest; `except Exception as e` catches it and
prints `Error al subir cambios: ` followed by `str(e)`. -/
def stage_commit_and_push (o : GitOracle) (s : GitState) : PublishResult :=
  match o.addError with
  | some e =>
    ⟨s, ⟨false, some ("Error al subir cambios: " ++ e)⟩, [.addAll]⟩
  | none =>
    let s1 : GitState := { s with pending := [], staged := s.staged ++ s.pending }
    match o.commitError with
    | some e =>
      ⟨s1, ⟨false, some ("Error al subir cambios: " ++ e)⟩,
        [.addAll, .commit COMMIT_MESSAGE]⟩
    | none =>
      let s2 : GitState :=
        { s1 with commits := s1.commits ++ [⟨COMMIT_MESSAGE, s1.staged⟩], staged := [] }
      match o.pushError with
      | some e =>
        ⟨s2, ⟨false, some ("Error al subir cambios: " ++ e)⟩,
          [.addAll, .commit COMMIT_MESSAGE, .push GITHUB_REMOTE BRANCH_NAME]⟩
      | none =>
        ⟨{ s2 with remoteCommits := s2.commits.length }, ⟨true, none⟩,
          [.addAll, .commit COMMIT_MESSAGE, .push GITHUB_REMOTE BRANCH_NAME]⟩

/-- C2: every publish attempts the three git steps in the strict order
stage, commit with the fixed configured message, push of the configured
branch to the configured remote — the attempted trace is always a prefix
of that three-step sequence, a later step is attempted exactly when every
earlier step succeeded, every commit step carries the one fixed message,
and every push step targets the configured remote and branch. -/
theorem C2_publish_steps_in_order (o : GitOracle) (s : GitState) :
    (stage_commit_and_push o s).attempted <+:
        [GitStep.addAll, GitStep.commit COMMIT_MESSAGE,
          GitStep.push GITHUB_REMOTE BRANCH_NAME] ∧
    GitStep.addAll ∈ (stage_commit_and_push o s).attempted ∧
    (GitStep.commit COMMIT_MESSAGE ∈ (stage_commit_and_push o s).attempted ↔
      o.addError = none) ∧
    (GitStep.push GITHUB_REMOTE BRANCH_NAME ∈ (stage_commit_and_push o s).attempted ↔
      o.addError = none ∧ o.commitError = none) ∧
    (∀ m, GitStep.commit m ∈ (stage_commit_and_push o s).attempted →
      m = COMMIT_MESSAGE) ∧
    (∀ r b, GitStep.push r b ∈ (stage_commit_and_push o s).attempted →
      r = GITHUB_REMOTE ∧ b = BRANCH_NAME) := by
  obtain ⟨a, c, p⟩ := o
  cases a <;> cases c <;> cases p <;>
    simp [stage_commit_and_push, List.IsPrefix]

/-- Witness for C2 at a concrete run in which every git call succeeds:
the commit step with the fixed message is attempted. -/
theorem C2_publish_steps_in_order_witness :
    GitStep.commit COMMIT_MESSAGE ∈
      (stage_commit_and_push ⟨none, none, none⟩ ⟨["src/app.py"], [], [], 0⟩).attempted :=
  ((C2_publish_steps_in_order ⟨none, none, none⟩
    ⟨["src/app.py"], [], [], 0⟩).2.2.1).mpr rfl

/-! ### The watch loop: Observer dispatch and the main delivery loop -/

/-- Kind of a raw watchdog filesystem notification. -/
inductive NotifKind where
  | created : NotifKind
  | modified : NotifKind
  | deleted : NotifKind
  | moved : NotifKind
deriving DecidableEq

/-- A raw notification delivered by the watchdog observer: a kind together
with the event record handed to the corresponding handler method. -/
structure RawNotification where
  kind : NotifKind
  event : ChangeEvent
deriving DecidableEq

/-- Embedding of the body of `GitAutoCommit.on_modified`: when the guard
accepts, `self.stage_commit_and_push()` runs and its outcome is logged;
otherwise nothing happens. -/
def on_modified (o : GitOracle) (s : GitState) (event : ChangeEvent) :
    GitState × List PublishOutcome :=
  if on_modified_triggers event then
    ((stage_commit_and_push o s).state, [(stage_commit_and_push o s).outcome])
  else (s, [])

/-- Embedding of watchdog handler dispatch for `GitAutoCommit`: the class
overrides only `on_modified`, so the inherited `FileSystemEventHandler`
defaults run for created, deleted and moved notifications and do
nothing. -/
def dispatch (o : GitOracle) (s : GitState) (n : RawNotification) :
    GitState × List PublishOutcome :=
  match n.kind with
  | .modified => on_modified o s n.event
  | _ => (s, [])

/-- Embedding of the observer delivery loop of `__main__`: a finite
sequence of raw notifications is delivered one at a time, each with the
oracle describing how the git calls behave during its handling; the result
is the final repository state and the publish outcomes in order. -/
def run_watch : List (RawNotification × GitOracle) → GitState → GitState × List PublishOutcome
  | [], s => (s, [])
  | (n, o) :: rest, s =>
    ((run_watch rest (dispatch o s n).1).1,
      (dispatch o s n).2 ++ (run_watch rest (dispatch o s n).1).2)

/-- Predicate: this notification makes the handler invoke the publisher. -/
def notif_triggers (n : RawNotification) : Bool :=
  match n.kind with
  | .modified => on_modified_triggers n.event
  | _ => false

theorem dispatch_outs_length (o : GitOracle) (s : GitState) (n : RawNotification) :
    (dispatch o s n).2.length = if notif_triggers n = true then 1 else 0 := by
  rcases n with ⟨k, e⟩
  cases k <;> simp [dispatch, notif_triggers, on_modified] <;>
    split <;> simp_all

theorem run_watch_outs_length (ns : List (RawNotification × GitOracle)) (s : GitState) :
    (run_watch ns s).2.length = ns.countP (fun p => notif_triggers p.1) := by
  induction ns generalizing s with
  | nil => simp [run_watch]
  | cons hd tl ih =>
    rcases hd with ⟨n, o⟩
    simp [run_watch, List.countP_cons, ih, dispatch_outs_length]
    cases notif_triggers n <;> simp <;> omega

/-- C3: whenever one of the three git calls raises, the publisher reports
`succeeded = false` with a logged error message, the calls after the
failing one are never attempted, no call is retried (the attempted trace
has no duplicate), and the watch loop still delivers every remaining
notification: for every notification sequence, one outcome is produced per
triggering notification, so a publish failure never terminates the
loop. -/
theorem C3_failure_caught_loop_continues (o : GitOracle) (s : GitState)
    (ns : List (RawNotification × GitOracle))
    (h : o.addError ≠ none ∨ o.commitError ≠ none ∨ o.pushError ≠ none) :
    (stage_commit_and_push o s).outcome.succeeded = false ∧
    (∃ m, (stage_commit_and_push o s).outcome.errorMessage = some m) ∧
    (o.addError ≠ none →
      (stage_commit_and_push o s).attempted = [GitStep.addAll]) ∧
    (o.addError = none → o.commitError ≠ none →
      (stage_commit_and_push o s).attempted =
        [GitStep.addAll, GitStep.commit COMMIT_MESSAGE]) ∧
    (stage_commit_and_push o s).attempted.Nodup ∧
    (run_watch ns s).2.length = ns.countP (fun p => notif_triggers p.1) := by
  obtain ⟨a, c, p⟩ := o
  refine ⟨?_, ?_, ?_, ?_, ?_, run_watch_outs_length ns s⟩ <;>
    cases a <;> cases c <;> cases p <;>
      simp_all [stage_commit_and_push]

/-- Witness for C3 at a concrete failing run: the commit call raises, the
outcome reports failure, and a loop of one later notification still
produces one outcome. -/
theorem C3_failure_caught_loop_continues_witness :
    (stage_commit_and_push ⟨none, some "boom", none⟩ ⟨[], [], [], 0⟩).outcome.succeeded
        = false ∧
    (run_watch ([(⟨NotifKind.modified, ⟨"a.py", false⟩⟩, ⟨none, none, none⟩)] :
          List (RawNotification × GitOracle))
        ⟨[], [], [], 0⟩).2.length =
      List.countP (fun p => notif_triggers p.1)
        ([(⟨NotifKind.modified, ⟨"a.py", false⟩⟩, ⟨none, none, none⟩)] :
          List (RawNotification × GitOracle)) :=
  ⟨(C3_failure_caught_loop_continues ⟨none, some "boom", none⟩ ⟨[], [], [], 0⟩
      [(⟨NotifKind.modified, ⟨"a.py", false⟩⟩, ⟨none, none, none⟩)]
      (Or.inr (Or.inl (by decide)))).1,
    (C3_failure_caught_loop_continues ⟨none, some "boom", none⟩ ⟨[], [], [], 0⟩
      [(⟨NotifKind.modified, ⟨"a.py", false⟩⟩, ⟨none, none, none⟩)]
      (Or.inr (Or.inl (by decide)))).2.2.2.2.2⟩

/-- C4: when stage and commit succeed and the push raises, the outcome is
`succeeded = false` with a non-empty error message, and the commit created
by the commit step is still the last entry of local history — nothing is
rolled back. -/
theorem C4_push_failure_no_rollback (s : GitState) (e : String) :
    (stage_commit_and_push ⟨none, none, some e⟩ s).outcome.succeeded = false ∧
    (∃ m, (stage_commit_and_push ⟨none, none, some e⟩ s).outcome.errorMessage = some m ∧
      m ≠ "") ∧
    (stage_commit_and_push ⟨none, none, some e⟩ s).state.commits =
      s.commits ++ [⟨COMMIT_MESSAGE, s.staged ++ s.pending⟩] := by
  refine ⟨rfl, ⟨"Error al subir cambios: " ++ e, rfl, ?_⟩, rfl⟩
  intro h
  have hl := congrArg String.length h
  simp [String.length_append] at hl
  exact absurd hl.1 (by decide)

/-! ### Empty-commit behavior, debounce, and process lifecycle -/

/-- C5 counterexample: running the publisher on a repository with no
pending changes and an empty index, with every git call succeeding,
reports success and appends a commit with an empty file set to the local
history — so a publish with nothing to commit does add an empty commit,
since `repo.index.commit` records a commit unconditionally. -/
theorem C5_counterexample_empty_commit :
    (stage_commit_and_push ⟨none, none, none⟩ ⟨[], [], [], 0⟩).outcome.succeeded = true ∧
    (stage_commit_and_push ⟨none, none, none⟩ ⟨[], [], [], 0⟩).state.commits =
      [⟨COMMIT_MESSAGE, []⟩] := by
  exact ⟨rfl, rfl⟩

/-- C5 amended: calling the publisher with no pending changes never raises
— for every behavior of the git calls it returns an outcome, either
success with no error message or a caught failure with one — but whenever
the stage and commit calls return normally it appends an empty commit with
the fixed message to the history. -/
theorem C5_amended_publish_no_changes (s : GitState) (o : GitOracle)
    (h : s.pending = [] ∧ s.staged = []) :
    ((stage_commit_and_push o s).outcome.succeeded = true ∧
        (stage_commit_and_push o s).outcome.errorMessage = none ∨
      (stage_commit_and_push o s).outcome.succeeded = false ∧
        ∃ m, (stage_commit_and_push o s).outcome.errorMessage = some m) ∧
    (o.addError = none → o.commitError = none →
      (stage_commit_and_push o s).state.commits =
        s.commits ++ [⟨COMMIT_MESSAGE, []⟩]) := by
  obtain ⟨hp, hs⟩ := h
  obtain ⟨a, c, p⟩ := o
  cases a <;> cases c <;> cases p <;> simp [stage_commit_and_push, hp, hs]

/-- Witness for the amended C5 at a concrete clean repository: the
successful run appends exactly one empty commit. -/
theorem C5_amended_publish_no_changes_witness :
    (stage_commit_and_push ⟨none, none, none⟩ ⟨[], [], [], 0⟩).state.commits =
      [] ++ [⟨COMMIT_MESSAGE, []⟩] :=
  (C5_amended_publish_no_changes ⟨[], [], [], 0⟩ ⟨none, none, none⟩ ⟨rfl, rfl⟩).2 rfl rfl

/-- C6: evaluation of the watch loop at the claim's scenario: two
modification events for two different non-ignored files are delivered in
immediate succession while both files are pending; the handler runs one
full stage/commit/push cycle per event, so two publish cycles and two
commits result (the second one empty) — never one coalesced cycle,
because the source has no debouncing or coalescing at all. -/
theorem C6_two_events_two_publish_cycles :
    (run_watch ([(⟨NotifKind.modified, ⟨"a.py", false⟩⟩, ⟨none, none, none⟩),
          (⟨NotifKind.modified, ⟨"b.py", false⟩⟩, ⟨none, none, none⟩)] :
            List (RawNotification × GitOracle))
        ⟨["a.py", "b.py"], [], [], 0⟩).2.length = 2 ∧
    (run_watch ([(⟨NotifKind.modified, ⟨"a.py", false⟩⟩, ⟨none, none, none⟩),
          (⟨NotifKind.modified, ⟨"b.py", false⟩⟩, ⟨none, none, none⟩)] :
            List (RawNotification × GitOracle))
        ⟨["a.py", "b.py"], [], [], 0⟩).1.commits =
      [⟨COMMIT_MESSAGE, ["a.py", "b.py"]⟩, ⟨COMMIT_MESSAGE, []⟩] := by
  constructor <;> rfl

/-- Result of one whole process run: the exit code, whether the watch
loop was entered, whether the observer was stopped before exit, and the
publish outcomes produced while watching. -/
structure ProgramRun where
  exitCode : Nat
  enteredWatchLoop : Bool
  observerStopped : Bool
  outcomes : List PublishOutcome
deriving DecidableEq

/-- Embedding of the process lifecycle of auto-git-commit.py.  Module load
runs `repo = Repo(REPO_PATH)`; if that raises (`initError = some e`) the
exception is uncaught, so Python terminates with exit code 1 before the
handler, observer or loop exist.  Otherwise `__main__` starts the
observer, sleeps in `while True` until KeyboardInterrupt, catches it,
calls `observer.stop()` and `observer.join()`, and falls off the end of
the script with exit code 0.  Publish failures never escape the handler's
`except` block, so they cannot reach this level. -/
def run_program (initError : Option String)
    (ns : List (RawNotification × GitOracle)) (s : GitState) : ProgramRun :=
  match initError with
  | some _ => ⟨1, false, false, []⟩
  | none => ⟨0, true, true, (run_watch ns s).2⟩

/-- C7: the exit code is 0 exactly when opening the repository succeeded;
an initialization failure exits non-zero before the watch loop is entered;
and on the clean path the observer is stopped and the exit code is 0
whatever the delivered events and their publish outcomes were — the exit
code never depends on the notification sequence. -/
theorem C7_exit_code_policy (ie : Option String)
    (ns : List (RawNotification × GitOracle)) (s : GitState) :
    ((run_program ie ns s).exitCode = 0 ↔ ie = none) ∧
    (ie ≠ none → (run_program ie ns s).exitCode ≠ 0 ∧
      (run_program ie ns s).enteredWatchLoop = false) ∧
    (ie = none → (run_program ie ns s).observerStopped = true ∧
      (run_program ie ns s).exitCode = 0) ∧
    (run_program ie ns s).exitCode = (run_program ie [] s).exitCode := by
  cases ie <;> simp [run_program]

/-- Witness for C7 at a concrete run: with initialization succeeding and
one event whose publish fails, the process still exits with code 0. -/
theorem C7_exit_code_policy_witness :
    (run_program none
        ([(⟨NotifKind.modified, ⟨"a.py", false⟩⟩, ⟨some "boom", none, none⟩)] :
          List (RawNotification × GitOracle))
        ⟨["a.py"], [], [], 0⟩).observerStopped = true ∧
    (run_program none
        ([(⟨NotifKind.modified, ⟨"a.py", false⟩⟩, ⟨some "boom", none, none⟩)] :
          List (RawNotification × GitOracle))
        ⟨["a.py"], [], [], 0⟩).exitCode = 0 :=
  (C7_exit_code_policy none
    [(⟨NotifKind.modified, ⟨"a.py", false⟩⟩, ⟨some "boom", none, none⟩)]
    ⟨["a.py"], [], [], 0⟩).2.2.1 rfl

theorem run_watch_no_modified (ns : List (RawNotification × GitOracle)) (s : GitState)
    (h : ∀ p ∈ ns, p.1.kind ≠ NotifKind.modified) : run_watch ns s = (s, []) := by
  induction ns generalizing s with
  | nil => rfl
  | cons hd tl ih =>
    rcases hd with ⟨n, o⟩
    have hd0 : dispatch o s n = (s, []) := by
      rcases n with ⟨k, e⟩
      have hk := h ⟨⟨k, e⟩, o⟩ (by simp)
      cases k <;> simp_all [dispatch]
    have htl : ∀ p ∈ tl, p.1.kind ≠ NotifKind.modified :=
      fun p hp => h p (List.mem_cons_of_mem _ hp)
    simp [run_watch, hd0, ih s htl]

/-- C8: only modified-kind notifications can invoke the publisher: the
loop produces exactly one outcome per notification that triggers, a
notification can trigger only if its kind is modified, and a sequence
containing no modified-kind notification produces no publish at all and
leaves the repository state unchanged. -/
theorem C8_only_modified_invokes_publisher
    (ns : List (RawNotification × GitOracle)) (s : GitState) :
    ((run_watch ns s).2.length = ns.countP (fun p => notif_triggers p.1) ∧
      ∀ p ∈ ns, notif_triggers p.1 = true → p.1.kind = NotifKind.modified) ∧
    ((∀ p ∈ ns, p.1.kind ≠ NotifKind.modified) → run_watch ns s = (s, [])) := by
  refine ⟨⟨run_watch_outs_length ns s, ?_⟩, run_watch_no_modified ns s⟩
  intro p hp ht
  rcases p with ⟨⟨k, e⟩, o⟩
  cases k <;> simp_all [notif_triggers]

/-- Witness for C8 at a concrete sequence of one created, one deleted and
one moved notification: no publish happens and the state is unchanged. -/
theorem C8_only_modified_invokes_publisher_witness :
    run_watch ([(⟨NotifKind.created, ⟨"a.py", false⟩⟩, ⟨none, none, none⟩),
        (⟨NotifKind.deleted, ⟨"a.py", false⟩⟩, ⟨none, none, none⟩),
        (⟨NotifKind.moved, ⟨"a.py", false⟩⟩, ⟨none, none, none⟩)] :
          List (RawNotification × GitOracle))
      ⟨["a.py"], [], [], 0⟩ = (⟨["a.py"], [], [], 0⟩, []) :=
  (C8_only_modified_invokes_publisher
    [(⟨NotifKind.created, ⟨"a.py", false⟩⟩, ⟨none, none, none⟩),
      (⟨NotifKind.deleted, ⟨"a.py", false⟩⟩, ⟨none, none, none⟩),
      (⟨NotifKind.moved, ⟨"a.py", false⟩⟩, ⟨none, none, none⟩)]
    ⟨["a.py"], [], [], 0⟩).2 (by decide)

/-! ### Ohm-law calculators (ley-ohm-calculadora.py and ley-ohm-desktop.py) -/

/-- Python exception value raised by the calculator code. -/
inductive PyError where
  | zeroDivisionError : PyError
  | valueError (msg : String) : PyError
deriving DecidableEq

/-- Embedding of Python numeric division `a / b` as applied to the
calculator inputs (values modelled as rationals): it raises
ZeroDivisionError exactly when the divisor equals zero, and otherwise
returns the quotient. -/
def py_div (a b : ℚ) : Except PyError ℚ :=
  if b = 0 then .error .zeroDivisionError else .ok (a / b)

/-- Embedding of `CalculadorVoltaje.calcular(self, corriente, resistencia)`
of ley-ohm-calculadora.py: `return corriente * resistencia`. -/
def CalculadorVoltaje.calcular (corriente resistencia : ℚ) : Except PyError ℚ :=
  .ok (corriente * resistencia)

/-- Embedding of `CalculadorCorriente.calcular(self, voltaje, resistencia)`
of ley-ohm-calculadora.py: `return voltaje / resistencia`. -/
def CalculadorCorriente.calcular (voltaje resistencia : ℚ) : Except PyError ℚ :=
  py_div voltaje resistencia

/-- Embedding of `CalculadorResistencia.calcular(self, voltaje, corriente)`
of ley-ohm-calculadora.py: `return voltaje / corriente`. -/
def CalculadorResistencia.calcular (voltaje corriente : ℚ) : Except PyError ℚ :=
  py_div voltaje corriente

/-- C9: the current calculator raises ZeroDivisionError exactly when
`resistencia` is zero, the resistance calculator raises it exactly when
`corriente` is zero, and the voltage calculator returns normally on every
pair of inputs. -/
theorem C9_division_unguarded (voltaje resistencia corriente : ℚ) :
    (CalculadorCorriente.calcular voltaje resistencia =
        .error .zeroDivisionError ↔ resistencia = 0) ∧
    (CalculadorResistencia.calcular voltaje corriente =
        .error .zeroDivisionError ↔ corriente = 0) ∧
    CalculadorVoltaje.calcular corriente resistencia =
      .ok (corriente * resistencia) := by
  unfold CalculadorCorriente.calcular CalculadorResistencia.calcular
    CalculadorVoltaje.calcular py_div
  refine ⟨?_, ?_, rfl⟩ <;> split <;> simp_all

/-- Which calculator class an Ohm-law factory instantiates. -/
inductive CalcKind where
  | voltaje : CalcKind
  | corriente : CalcKind
  | resistencia : CalcKind
deriving DecidableEq

/-- Embedding of `FabricaCalculadoraOhm.crear_calculadora` of
ley-ohm-calculadora.py (the command-line version): exact, case-sensitive
comparison against the three lowercase names, with
`raise ValueError("Tipo de calculadora no válido")` for everything
else. -/
def FabricaCalculadoraOhm.crear_calculadora (tipo : String) : Except PyError CalcKind :=
  if tipo = "voltaje" then .ok .voltaje
  else if tipo = "corriente" then .ok .corriente
  else if tipo = "resistencia" then .ok .resistencia
  else .error (.valueError "Tipo de calculadora no válido")

/-- Embedding of `FabricaCalculadoraOhm.crear_calculadora` of
ley-ohm-desktop.py (the desktop version, renamed here to keep the two
same-named Python classes apart): it compares against the capitalized
names instead. -/
def FabricaCalculadoraOhmDesktop.crear_calculadora (tipo : String) :
    Except PyError CalcKind :=
  if tipo = "Voltaje" then .ok .voltaje
  else if tipo = "Corriente" then .ok .corriente
  else if tipo = "Resistencia" then .ok .resistencia
  else .error (.valueError "Tipo de calculadora no válido")

/-- C10: the command-line factory returns the voltage, current or
resistance calculator exactly for the lowercase strings "voltaje",
"corriente", "resistencia", raises ValueError for every other string, and
in particular rejects the capitalized "Voltaje" that the desktop factory
accepts. -/
theorem C10_factory_case_sensitive (tipo : String) :
    (FabricaCalculadoraOhm.crear_calculadora tipo = .ok .voltaje ↔
      tipo = "voltaje") ∧
    (FabricaCalculadoraOhm.crear_calculadora tipo = .ok .corriente ↔
      tipo = "corriente") ∧
    (FabricaCalculadoraOhm.crear_calculadora tipo = .ok .resistencia ↔
      tipo = "resistencia") ∧
    (tipo ≠ "voltaje" → tipo ≠ "corriente" → tipo ≠ "resistencia" →
      FabricaCalculadoraOhm.crear_calculadora tipo =
        .error (.valueError "Tipo de calculadora no válido")) ∧
    FabricaCalculadoraOhm.crear_calculadora "Voltaje" =
      .error (.valueError "Tipo de calculadora no válido") ∧
    FabricaCalculadoraOhmDesktop.crear_calculadora "Voltaje" = .ok .voltaje := by
  by_cases h1 : tipo = "voltaje" <;> by_cases h2 : tipo = "corriente" <;>
    by_cases h3 : tipo = "resistencia" <;>
      simp_all [FabricaCalculadoraOhm.crear_calculadora,
        FabricaCalculadoraOhmDesktop.crear_calculadora]

/-- Witness for C10 at a concrete unknown type string: the command-line
factory raises ValueError on "potencia". -/
theorem C10_factory_case_sensitive_witness :
    FabricaCalculadoraOhm.crear_calculadora "potencia" =
      .error (.valueError "Tipo de calculadora no válido") :=
  (C10_factory_case_sensitive "potencia").2.2.2.1 (by decide) (by decide) (by decide)
